import Mathlib

/-!
Verification development for the REANA workflow-controller interactive-session
REST module (`reana_workflow_controller/rest/workflows_session.py`).

The module defines two Flask view functions, `open_interactive_session` and
`close_interactive_session`.  We embed them shallowly: the external
collaborators (the workflow resolver `_get_workflow_with_uuid_or_name`, the
session-type enumeration `InteractiveSessionType`, and the orchestration
backend `KubernetesWorkflowRunManager`) are modelled as an environment of
functions that either return a value or raise an exception, and each view
function becomes a total Lean function from that environment and the request
arguments to the observable outcome (a structured JSON response with a status
code, or an exception escaping the view unhandled), together with a trace bit
recording whether the backend was invoked.

A Python subtlety is modelled explicitly: in `open_interactive_session` the
local variable `workflow` is first assigned inside the `try` block, with no
prior `workflow = None` initialisation (unlike `close_interactive_session`,
which does initialise it).  If the resolver raises `KeyError` or `ValueError`,
the handler `status_code = 400 if workflow else 404` reads an unbound local
and raises `UnboundLocalError`; an exception raised inside an `except` clause
is not caught by the sibling `except Exception` clause of the same `try`
statement, so it escapes the view function unhandled.
-/

namespace ReanaWorkflowController

/-- Exception classes distinguished by the handlers in the source: the
`except (KeyError, ValueError)` clause versus the catch-all
`except Exception` clause. -/
inductive ExcKind where
  | keyError
  | valueError
  | other
deriving DecidableEq

/-- A raised Python exception: its class bucket and its `str(e)` message. -/
structure Exc where
  kind : ExcKind
  msg : String
deriving DecidableEq

/-- Run statuses of a workflow.  Modelled from the spec: a finite set of run
states including a terminal `deleted` state (`reana_db.models.RunStatus` is
not part of this repository). -/
inductive RunStatus where
  | created
  | queued
  | pending
  | running
  | finished
  | failed
  | stopped
  | deleted
deriving DecidableEq

/-- An interactive session record; `id_` is the identifier handed to the
backend teardown call (`int_session.id_` in the source). -/
structure Session where
  id_ : String
deriving DecidableEq

/-- A workflow record as read by the controller: identity, owner, run status,
and `sessions.first()` modelled as an optional session (the data model keeps
at most one session per workflow). -/
structure Workflow where
  id_ : String
  owner_id : String
  status : RunStatus
  session : Option Session
deriving DecidableEq

/-- Modelled from the spec: `InteractiveSessionType` is a closed, statically
known enumeration (`reana_db.models.InteractiveSessionType` is not part of
this repository); the member catalog contains `jupyter`, as listed by the
docstring example message. -/
def InteractiveSessionType.members : List String := ["jupyter"]

/-- Python `repr` of a list of strings, as produced by the f-string
interpolation of `[e.name for e in InteractiveSessionType]`. -/
def pyStrListRepr (names : List String) : String :=
  "[" ++ String.intercalate ", " (names.map (fun n => "\x27" ++ n ++ "\x27")) ++ "]"

/-- The environment of external collaborators.  Modelled from the spec:
`resolve(workflow_ref, owner_id) -> Workflow | NotFoundError`,
`Backend.provision(workflow, session_type, image_override) -> access_path | Error`,
`Backend.teardown(session_id) -> () | Error` (the resolver and the Kubernetes
run manager are not part of this repository). -/
structure Env where
  resolve : String → String → Except Exc Workflow
  provision : Workflow → String → Option String → Except Exc String
  teardown : String → Except Exc Unit

/-- Modelled from the spec: resolution failure is a not-found error naming the
workflow reference; the source docstrings show it surfacing as the message
`Workflow <ref> does not exist` under status 404, which the `except
(KeyError, ValueError)` handler produces, so it is of `valueError` kind. -/
def workflowNotFound (ref : String) : Exc :=
  ⟨ExcKind.valueError, "Workflow " ++ ref ++ " does not exist"⟩

/-- A JSON response body: either `message: <text>` or `path: <text>`. -/
inductive Body where
  | message (text : String)
  | path (text : String)
deriving DecidableEq

/-- A structured response: a JSON body together with an HTTP status code. -/
structure Response where
  body : Body
  status : Nat
deriving DecidableEq

/-- What the transport boundary observes from one invocation of a view
function: a structured response, or an exception escaping unhandled. -/
inductive Outcome where
  | response (r : Response)
  | unhandled (e : Exc)
deriving DecidableEq

/-- Result of `open_interactive_session` plus a trace bit recording whether
the backend provision call (`kwrm.start_interactive_session`) was invoked. -/
structure OpenResult where
  outcome : Outcome
  provisionCalled : Bool
deriving DecidableEq

/-- Result of `close_interactive_session` plus a trace bit recording whether
the backend teardown call (`kwrm.stop_interactive_session`) was invoked. -/
structure CloseResult where
  outcome : Outcome
  teardownCalled : Bool
deriving DecidableEq

/-- The message of the `UnboundLocalError` raised when the `except` handler of
`open_interactive_session` reads the never-assigned local `workflow`. -/
def unboundLocalMsg : String :=
  "local variable \x27workflow\x27 referenced before assignment"

/-- The 404 message for an unknown interactive session type. -/
def unknownSessionTypeMsg (interactive_session_type : String) : String :=
  "Interactive session type " ++ interactive_session_type ++
    " not found, try with one of: " ++ pyStrListRepr InteractiveSessionType.members

/-- The 404 message when the workflow already has an open session. -/
def sessionAlreadyOpenMsg : String := "Interactive session is already open"

/-- The 404 message when the workflow status is `deleted`. -/
def workflowDeletedMsg : String :=
  "Interactive session can\x27t be opened from a deleted workflow"

/-- The 404 message of `close_interactive_session` when the workflow has no
open session; it names the workflow reference. -/
def noOpenSessionMsg (workflow_id_or_name : String) : String :=
  "Workflow - " ++ workflow_id_or_name ++ " has no open interactive session."

/-- The 200 confirmation message of `close_interactive_session`. -/
def sessionClosedMsg : String := "The interactive session has been closed"

/-- Shallow embedding of the view function `open_interactive_session`.
Control flow of the source, in order: the session-type membership test, the
workflow resolution, the existing-session test, the deleted-status test, the
backend provision call; exceptions from the resolver or the backend reach the
two `except` clauses.  When the resolver raises `KeyError` or `ValueError`,
the handler reads the unbound local `workflow` and the resulting
`UnboundLocalError` escapes the view unhandled; when the backend raises
`KeyError` or `ValueError`, `workflow` is bound to a (truthy) workflow object
and the handler returns status 400. -/
def open_interactive_session (env : Env)
    (workflow_id_or_name interactive_session_type user : String)
    (image : Option String) : OpenResult :=
  if InteractiveSessionType.members.contains interactive_session_type = false then
    { outcome := .response ⟨.message (unknownSessionTypeMsg interactive_session_type), 404⟩,
      provisionCalled := false }
  else
    match env.resolve workflow_id_or_name user with
    | .error e =>
      match e.kind with
      | .keyError => { outcome := .unhandled ⟨ExcKind.other, unboundLocalMsg⟩,
                       provisionCalled := false }
      | .valueError => { outcome := .unhandled ⟨ExcKind.other, unboundLocalMsg⟩,
                         provisionCalled := false }
      | .other => { outcome := .response ⟨.message e.msg, 500⟩, provisionCalled := false }
    | .ok workflow =>
      if workflow.session.isSome then
        { outcome := .response ⟨.message sessionAlreadyOpenMsg, 404⟩, provisionCalled := false }
      else if workflow.status = RunStatus.deleted then
        { outcome := .response ⟨.message workflowDeletedMsg, 404⟩, provisionCalled := false }
      else
        match env.provision workflow interactive_session_type image with
        | .ok access_path =>
          { outcome := .response ⟨.path access_path, 200⟩, provisionCalled := true }
        | .error e =>
          match e.kind with
          | .keyError => { outcome := .response ⟨.message e.msg, 400⟩, provisionCalled := true }
          | .valueError => { outcome := .response ⟨.message e.msg, 400⟩, provisionCalled := true }
          | .other => { outcome := .response ⟨.message e.msg, 500⟩, provisionCalled := true }

/-- Shallow embedding of the view function `close_interactive_session`.
Here the source initialises `workflow = None` before resolving, so a
resolver-raised `KeyError` or `ValueError` reaches the handler with a falsy
`workflow` and returns status 404; after the workflow is bound, the same
handler returns 400. -/
def close_interactive_session (env : Env)
    (workflow_id_or_name user : String) : CloseResult :=
  match env.resolve workflow_id_or_name user with
  | .error e =>
    match e.kind with
    | .keyError => { outcome := .response ⟨.message e.msg, 404⟩, teardownCalled := false }
    | .valueError => { outcome := .response ⟨.message e.msg, 404⟩, teardownCalled := false }
    | .other => { outcome := .response ⟨.message e.msg, 500⟩, teardownCalled := false }
  | .ok workflow =>
    match workflow.session with
    | none =>
      { outcome := .response ⟨.message (noOpenSessionMsg workflow_id_or_name), 404⟩,
        teardownCalled := false }
    | some int_session =>
      match env.teardown int_session.id_ with
      | .ok _ =>
        { outcome := .response ⟨.message sessionClosedMsg, 200⟩, teardownCalled := true }
      | .error e =>
        match e.kind with
        | .keyError => { outcome := .response ⟨.message e.msg, 400⟩, teardownCalled := true }
        | .valueError => { outcome := .response ⟨.message e.msg, 400⟩, teardownCalled := true }
        | .other => { outcome := .response ⟨.message e.msg, 500⟩, teardownCalled := true }

/-- Modelled from the spec: the backend removes the Session record as a side
effect of successful teardown, so after a successful close the workflow
resolves with no session. -/
def afterSuccessfulClose (w : Workflow) : Workflow := { w with session := none }

/-! ## Concrete fixtures used by counterexamples and witnesses -/

/-- A running workflow with no open session. -/
def wfRunning : Workflow :=
  { id_ := "wf-1", owner_id := "user-1", status := RunStatus.running, session := none }

/-- A deleted workflow with no open session. -/
def wfDeleted : Workflow :=
  { id_ := "wf-2", owner_id := "user-1", status := RunStatus.deleted, session := none }

/-- A running workflow with an open session. -/
def wfWithSession : Workflow :=
  { id_ := "wf-3", owner_id := "user-1", status := RunStatus.running,
    session := some ⟨"sess-3"⟩ }

/-- A deleted workflow that still has an open session. -/
def wfDeletedWithSession : Workflow :=
  { id_ := "wf-4", owner_id := "user-1", status := RunStatus.deleted,
    session := some ⟨"sess-4"⟩ }

/-- An environment whose resolver finds no workflow for any reference. -/
def envNotFound : Env :=
  { resolve := fun r _ => .error (workflowNotFound r),
    provision := fun _ _ _ => .ok "/generated-id",
    teardown := fun _ => .ok () }

/-- An environment resolving every reference to `wfRunning`, with a backend
that succeeds. -/
def envRunning : Env :=
  { resolve := fun _ _ => .ok wfRunning,
    provision := fun _ _ _ => .ok "/generated-id",
    teardown := fun _ => .ok () }

/-- An environment resolving every reference to `wfDeleted`. -/
def envDeleted : Env :=
  { resolve := fun _ _ => .ok wfDeleted,
    provision := fun _ _ _ => .ok "/generated-id",
    teardown := fun _ => .ok () }

/-- An environment resolving every reference to `wfWithSession`. -/
def envWithSession : Env :=
  { resolve := fun _ _ => .ok wfWithSession,
    provision := fun _ _ _ => .ok "/generated-id",
    teardown := fun _ => .ok () }

/-- An environment resolving every reference to `wfDeletedWithSession`. -/
def envDeletedWithSession : Env :=
  { resolve := fun _ _ => .ok wfDeletedWithSession,
    provision := fun _ _ _ => .ok "/generated-id",
    teardown := fun _ => .ok () }

/-- An environment whose backend provision call raises a `ValueError`. -/
def envProvisionValueError : Env :=
  { resolve := fun _ _ => .ok wfRunning,
    provision := fun _ _ _ => .error ⟨ExcKind.valueError, "boom"⟩,
    teardown := fun _ => .ok () }

/-- An environment whose backend provision call raises an exception outside
the `KeyError`/`ValueError` classes. -/
def envProvisionOtherError : Env :=
  { resolve := fun _ _ => .ok wfRunning,
    provision := fun _ _ _ => .error ⟨ExcKind.other, "cluster unreachable"⟩,
    teardown := fun _ => .ok () }

/-! ## Claims -/

/-- C1: the claim states that when `workflow_ref` does not resolve for
`owner_id`, both open and close return the structured 404 `WorkflowNotFound`
outcome.  The code satisfies this for close, but in open the resolver-raised
not-found `ValueError` makes the `except` handler read the unbound local
`workflow`, so an `UnboundLocalError` escapes the view unhandled instead of
any 404 response: the source contradicts its own docstring, which documents a
404 response with message `Workflow ... does not exist` for open.  This
theorem evaluates both views at the failing input. -/
theorem c1_open_not_found_crashes_close_returns_404 :
    open_interactive_session envNotFound "wf-404" "jupyter" "user-1" none =
      { outcome := Outcome.unhandled ⟨ExcKind.other, unboundLocalMsg⟩,
        provisionCalled := false } ∧
    close_interactive_session envNotFound "wf-404" "user-1" =
      { outcome := Outcome.response ⟨Body.message "Workflow wf-404 does not exist", 404⟩,
        teardownCalled := false } := by
  constructor <;> rfl

/-- C2: the claim states that for every input and every resolver or backend
error, both open and close return a structured JSON outcome and no exception
escapes unhandled to the transport boundary.  Close satisfies this (second
conjunct), but open does not: a resolver-raised not-found error makes the
`except` handler raise `UnboundLocalError`, which escapes the view unhandled
(first conjunct evaluates open at such a failing input). -/
theorem c2_open_leaks_exception_close_always_structured :
    (open_interactive_session envNotFound "wf-missing" "jupyter" "user-2" none).outcome =
      Outcome.unhandled ⟨ExcKind.other, unboundLocalMsg⟩ ∧
    ∀ (env : Env) (ref user : String),
      ∃ r, (close_interactive_session env ref user).outcome = Outcome.response r := by
  refine ⟨rfl, fun env ref user => ?_⟩
  unfold close_interactive_session
  repeat' split
  all_goals exact ⟨_, rfl⟩

/-- C3 counterexample: the claim says a deleted workflow makes open fail with
`WorkflowDeleted` regardless of session-type validity and regardless of any
existing session.  Both riders are false: with an invalid session type the
session-type check fires first (first conjunct), and with an existing session
the already-open check fires first (second conjunct); in neither case is the
`WorkflowDeleted` outcome produced. -/
theorem c3_deleted_not_always_workflow_deleted :
    (open_interactive_session envDeleted "wf-2" "terminl" "user-1" none).outcome ≠
      Outcome.response ⟨Body.message workflowDeletedMsg, 404⟩ ∧
    (open_interactive_session envDeletedWithSession "wf-4" "jupyter" "user-1" none).outcome ≠
      Outcome.response ⟨Body.message workflowDeletedMsg, 404⟩ := by
  constructor <;> decide

/-- C3 amended: for every workflow whose status is the terminal deleted state,
if the requested session type is valid and the workflow has no existing
session, open fails with the `WorkflowDeleted` outcome (status 404) and the
backend is never invoked. -/
theorem c3_deleted_workflow_open_fails (env : Env) (ref t user : String)
    (img : Option String) (w : Workflow)
    (ht : InteractiveSessionType.members.contains t = true)
    (hw : env.resolve ref user = Except.ok w)
    (hs : w.session = none)
    (hd : w.status = RunStatus.deleted) :
    open_interactive_session env ref t user img =
      { outcome := Outcome.response ⟨Body.message workflowDeletedMsg, 404⟩,
        provisionCalled := false } := by
  unfold open_interactive_session
  rw [ht, hw]
  simp [hs, hd]

/-- C3 witness: the amended statement instantiated on a concrete deleted
workflow with a valid session type. -/
theorem c3_deleted_workflow_open_fails_witness :
    InteractiveSessionType.members.contains "jupyter" = true ∧
    envDeleted.resolve "wf-2" "user-1" = Except.ok wfDeleted ∧
    wfDeleted.session = none ∧
    wfDeleted.status = RunStatus.deleted ∧
    open_interactive_session envDeleted "wf-2" "jupyter" "user-1" none =
      { outcome := Outcome.response ⟨Body.message workflowDeletedMsg, 404⟩,
        provisionCalled := false } :=
  ⟨rfl, rfl, rfl, rfl,
    c3_deleted_workflow_open_fails envDeleted "wf-2" "jupyter" "user-1" none wfDeleted
      rfl rfl rfl rfl⟩

/-- C4 counterexample: the claim says open on a workflow with an existing
session always fails with `SessionAlreadyOpen`; with an invalid session type
the session-type check fires first and the outcome is the unknown-type
message instead. -/
theorem c4_session_not_always_already_open :
    (open_interactive_session envWithSession "wf-3" "terminl" "user-1" none).outcome ≠
      Outcome.response ⟨Body.message sessionAlreadyOpenMsg, 404⟩ := by
  decide

/-- C4 amended: for every workflow that already has a session, open with a
valid session type fails with the `SessionAlreadyOpen` outcome reported with
status 404, and the provision call is never invoked whatever the session
type. -/
theorem c4_session_already_open (env : Env) (ref t user : String)
    (img : Option String) (w : Workflow)
    (hw : env.resolve ref user = Except.ok w)
    (hs : w.session.isSome = true) :
    (InteractiveSessionType.members.contains t = true →
      open_interactive_session env ref t user img =
        { outcome := Outcome.response ⟨Body.message sessionAlreadyOpenMsg, 404⟩,
          provisionCalled := false }) ∧
    (open_interactive_session env ref t user img).provisionCalled = false := by
  constructor
  · intro ht
    unfold open_interactive_session
    rw [ht, hw]
    simp [hs]
  · unfold open_interactive_session
    cases hc : InteractiveSessionType.members.contains t
    · simp
    · rw [hw]
      simp [hs]

/-- C4 witness: the amended statement instantiated on a concrete workflow with
an open session and the valid session type `jupyter`. -/
theorem c4_session_already_open_witness :
    envWithSession.resolve "wf-3" "user-1" = Except.ok wfWithSession ∧
    wfWithSession.session.isSome = true ∧
    ((InteractiveSessionType.members.contains "jupyter" = true →
      open_interactive_session envWithSession "wf-3" "jupyter" "user-1" none =
        { outcome := Outcome.response ⟨Body.message sessionAlreadyOpenMsg, 404⟩,
          provisionCalled := false }) ∧
    (open_interactive_session envWithSession "wf-3" "jupyter" "user-1" none).provisionCalled
      = false) :=
  ⟨rfl, rfl,
    c4_session_already_open envWithSession "wf-3" "jupyter" "user-1" none wfWithSession
      rfl rfl⟩

/-- An environment resolving every reference to the state left behind by a
successful close of `wfWithSession`: the session record has been removed. -/
def envAfterClose : Env :=
  { resolve := fun _ _ => .ok (afterSuccessfulClose wfWithSession),
    provision := fun _ _ _ => .ok "/generated-id",
    teardown := fun _ => .ok () }

/-- C5: for every workflow that resolves for the given owner but has no
session, close fails with the `NoOpenSession` outcome — status 404 with a
message naming the workflow reference — and the teardown call is never
invoked (first conjunct).  Consequently a second close right after a
successful close, against the state in which the backend has removed the
session record, fails with `NoOpenSession` (second conjunct). -/
theorem c5_close_no_open_session :
    (∀ (env : Env) (ref user : String) (w : Workflow),
      env.resolve ref user = Except.ok w → w.session = none →
      close_interactive_session env ref user =
        { outcome := Outcome.response ⟨Body.message (noOpenSessionMsg ref), 404⟩,
          teardownCalled := false }) ∧
    (∀ (env env2 : Env) (ref user : String) (w : Workflow),
      env.resolve ref user = Except.ok w →
      (close_interactive_session env ref user).outcome =
        Outcome.response ⟨Body.message sessionClosedMsg, 200⟩ →
      env2.resolve ref user = Except.ok (afterSuccessfulClose w) →
      close_interactive_session env2 ref user =
        { outcome := Outcome.response ⟨Body.message (noOpenSessionMsg ref), 404⟩,
          teardownCalled := false }) := by
  constructor
  · intro env ref user w hw hs
    unfold close_interactive_session
    rw [hw]
    simp [hs]
  · intro env env2 ref user w _ _ h2
    unfold close_interactive_session
    rw [h2]
    simp [afterSuccessfulClose]

/-- C5 witness: both conjuncts instantiated on concrete states — a workflow
with no session, and the state right after a successful close of a workflow
that had one. -/
theorem c5_close_no_open_session_witness :
    envRunning.resolve "wf-1" "user-1" = Except.ok wfRunning ∧
    wfRunning.session = none ∧
    close_interactive_session envRunning "wf-1" "user-1" =
      { outcome := Outcome.response ⟨Body.message (noOpenSessionMsg "wf-1"), 404⟩,
        teardownCalled := false } ∧
    envWithSession.resolve "wf-3" "user-1" = Except.ok wfWithSession ∧
    (close_interactive_session envWithSession "wf-3" "user-1").outcome =
      Outcome.response ⟨Body.message sessionClosedMsg, 200⟩ ∧
    envAfterClose.resolve "wf-3" "user-1" = Except.ok (afterSuccessfulClose wfWithSession) ∧
    close_interactive_session envAfterClose "wf-3" "user-1" =
      { outcome := Outcome.response ⟨Body.message (noOpenSessionMsg "wf-3"), 404⟩,
        teardownCalled := false } :=
  ⟨rfl, rfl,
    c5_close_no_open_session.1 envRunning "wf-1" "user-1" wfRunning rfl rfl,
    rfl, rfl, rfl,
    c5_close_no_open_session.2 envWithSession envAfterClose "wf-3" "user-1" wfWithSession
      rfl rfl rfl⟩

/-- C6: for every session type outside the enumeration, open returns status
404 with the message carrying the rejected value and the Python repr of the
full list of valid enumeration members, the provision call is never invoked,
and the result is independent of the resolver and backend environment — the
check fires before any workflow resolution or backend call.  The last
conjunct spells the message out. -/
theorem c6_unknown_session_type (env env2 : Env) (ref t user : String)
    (img : Option String)
    (ht : InteractiveSessionType.members.contains t = false) :
    open_interactive_session env ref t user img =
      { outcome := Outcome.response ⟨Body.message (unknownSessionTypeMsg t), 404⟩,
        provisionCalled := false } ∧
    open_interactive_session env ref t user img = open_interactive_session env2 ref t user img ∧
    unknownSessionTypeMsg t =
      "Interactive session type " ++ t ++ " not found, try with one of: " ++
        "[\x27jupyter\x27]" := by
  refine ⟨?_, ?_, rfl⟩ <;>
    · unfold open_interactive_session
      rw [ht]
      rfl

/-- C6 witness: the unknown-type theorem instantiated on the docstring typo
`terminl`, over two different environments. -/
theorem c6_unknown_session_type_witness :
    InteractiveSessionType.members.contains "terminl" = false ∧
    (open_interactive_session envRunning "wf-1" "terminl" "user-1" none =
      { outcome := Outcome.response ⟨Body.message (unknownSessionTypeMsg "terminl"), 404⟩,
        provisionCalled := false } ∧
    open_interactive_session envRunning "wf-1" "terminl" "user-1" none =
      open_interactive_session envDeleted "wf-1" "terminl" "user-1" none ∧
    unknownSessionTypeMsg "terminl" =
      "Interactive session type " ++ "terminl" ++ " not found, try with one of: " ++
        "[\x27jupyter\x27]") :=
  ⟨rfl, c6_unknown_session_type envRunning envDeleted "wf-1" "terminl" "user-1" none rfl⟩

/-- C7 counterexample: the claim says every backend provisioning error maps to
the internal-failure outcome with status 500; but a backend-raised
`ValueError` is caught by the `except (KeyError, ValueError)` clause, where
`workflow` is bound and truthy, so the status is 400, not 500. -/
theorem c7_value_error_maps_to_400 :
    (open_interactive_session envProvisionValueError "wf-1" "jupyter" "user-1" none).outcome =
      Outcome.response ⟨Body.message "boom", 400⟩ ∧
    (open_interactive_session envProvisionValueError "wf-1" "jupyter" "user-1" none).outcome ≠
      Outcome.response ⟨Body.message "boom", 500⟩ := by
  constructor
  · rfl
  · decide

/-- C7 amended: every backend provisioning error surfaces with the underlying
message as the response body; errors of the `KeyError`/`ValueError` classes
map to status 400 (the workflow context being resolved and truthy), and all
other errors map to the internal-failure outcome with status 500. -/
theorem c7_backend_error_surfaces (env : Env) (ref t user : String)
    (img : Option String) (w : Workflow) (e : Exc)
    (ht : InteractiveSessionType.members.contains t = true)
    (hw : env.resolve ref user = Except.ok w)
    (hs : w.session = none)
    (hd : w.status ≠ RunStatus.deleted)
    (hp : env.provision w t img = Except.error e) :
    (open_interactive_session env ref t user img).outcome =
      Outcome.response ⟨Body.message e.msg,
        match e.kind with
        | ExcKind.other => 500
        | _ => 400⟩ := by
  unfold open_interactive_session
  rw [ht, hw]
  simp only [hs, hd]
  rw [hp]
  obtain ⟨k, m⟩ := e
  cases k <;> simp [hs, hd]

/-- C7 witness: the amended mapping instantiated on a backend error of the
catch-all class, which surfaces with its own message and status 500. -/
theorem c7_backend_error_surfaces_witness :
    InteractiveSessionType.members.contains "jupyter" = true ∧
    envProvisionOtherError.resolve "wf-1" "user-1" = Except.ok wfRunning ∧
    wfRunning.session = none ∧
    wfRunning.status ≠ RunStatus.deleted ∧
    envProvisionOtherError.provision wfRunning "jupyter" none =
      Except.error ⟨ExcKind.other, "cluster unreachable"⟩ ∧
    (open_interactive_session envProvisionOtherError "wf-1" "jupyter" "user-1" none).outcome =
      Outcome.response ⟨Body.message "cluster unreachable", 500⟩ :=
  ⟨rfl, rfl, rfl, by decide, rfl,
    c7_backend_error_surfaces envProvisionOtherError "wf-1" "jupyter" "user-1" none wfRunning
      ⟨ExcKind.other, "cluster unreachable"⟩ rfl rfl rfl (by decide) rfl⟩

/-- C8: the open validations short-circuit in the fixed order session-type,
resolution, session-existence, deleted-status, backend.  Consequences proved:
a workflow that both has an open session and is deleted fails with
`SessionAlreadyOpen` (first conjunct), and whenever the provision call is
invoked, the session type is valid, the workflow resolved, it had no session
and its status was not deleted (second conjunct). -/
theorem c8_validation_order :
    (∀ (env : Env) (ref t user : String) (img : Option String) (w : Workflow),
      InteractiveSessionType.members.contains t = true →
      env.resolve ref user = Except.ok w →
      w.session.isSome = true →
      w.status = RunStatus.deleted →
      (open_interactive_session env ref t user img).outcome =
        Outcome.response ⟨Body.message sessionAlreadyOpenMsg, 404⟩) ∧
    (∀ (env : Env) (ref t user : String) (img : Option String),
      (open_interactive_session env ref t user img).provisionCalled = true →
      InteractiveSessionType.members.contains t = true ∧
      ∃ w, env.resolve ref user = Except.ok w ∧ w.session = none ∧
        w.status ≠ RunStatus.deleted) := by
  constructor
  · intro env ref t user img w ht hw hs _
    unfold open_interactive_session
    rw [ht, hw]
    simp [hs]
  · intro env ref t user img h
    unfold open_interactive_session at h
    cases hc : InteractiveSessionType.members.contains t
    · rw [hc] at h
      simp at h
    · rw [hc] at h
      simp only [Bool.true_eq_false, if_false] at h
      refine ⟨rfl, ?_⟩
      cases hr : env.resolve ref user with
      | error e =>
        rw [hr] at h
        obtain ⟨k, m⟩ := e
        cases k <;> simp at h
      | ok w =>
        rw [hr] at h
        cases hss : w.session with
        | some s =>
          simp [hss] at h
        | none =>
          by_cases hd : w.status = RunStatus.deleted
          · simp [hss, hd] at h
          · exact ⟨w, rfl, hss, hd⟩

/-- C8 witness: both conjuncts instantiated — a deleted workflow with an open
session yields `SessionAlreadyOpen`, and a concrete invocation that reached
the backend had passed all four checks. -/
theorem c8_validation_order_witness :
    InteractiveSessionType.members.contains "jupyter" = true ∧
    envDeletedWithSession.resolve "wf-4" "user-1" = Except.ok wfDeletedWithSession ∧
    wfDeletedWithSession.session.isSome = true ∧
    wfDeletedWithSession.status = RunStatus.deleted ∧
    (open_interactive_session envDeletedWithSession "wf-4" "jupyter" "user-1" none).outcome =
      Outcome.response ⟨Body.message sessionAlreadyOpenMsg, 404⟩ ∧
    (open_interactive_session envRunning "wf-1" "jupyter" "user-1" none).provisionCalled
      = true ∧
    (InteractiveSessionType.members.contains "jupyter" = true ∧
      ∃ w, envRunning.resolve "wf-1" "user-1" = Except.ok w ∧ w.session = none ∧
        w.status ≠ RunStatus.deleted) :=
  ⟨rfl, rfl, rfl, rfl,
    c8_validation_order.1 envDeletedWithSession "wf-4" "jupyter" "user-1" none
      wfDeletedWithSession rfl rfl rfl rfl,
    rfl,
    c8_validation_order.2 envRunning "wf-1" "jupyter" "user-1" none rfl⟩

/-- C9: for every close request whose workflow resolves, has a session, and
whose backend teardown succeeds, the response is status 200 with exactly the
body `message: The interactive session has been closed`, and the teardown was
invoked. -/
theorem c9_close_success (env : Env) (ref user : String) (w : Workflow) (s : Session)
    (hw : env.resolve ref user = Except.ok w)
    (hs : w.session = some s)
    (ht : env.teardown s.id_ = Except.ok ()) :
    close_interactive_session env ref user =
      { outcome := Outcome.response ⟨Body.message sessionClosedMsg, 200⟩,
        teardownCalled := true } := by
  unfold close_interactive_session
  rw [hw]
  simp [hs, ht]

/-- C9 witness: the success path instantiated on a concrete workflow with an
open session and a succeeding teardown. -/
theorem c9_close_success_witness :
    envWithSession.resolve "wf-3" "user-1" = Except.ok wfWithSession ∧
    wfWithSession.session = some ⟨"sess-3"⟩ ∧
    envWithSession.teardown "sess-3" = Except.ok () ∧
    close_interactive_session envWithSession "wf-3" "user-1" =
      { outcome := Outcome.response ⟨Body.message sessionClosedMsg, 200⟩,
        teardownCalled := true } :=
  ⟨rfl, rfl, rfl,
    c9_close_success envWithSession "wf-3" "user-1" wfWithSession ⟨"sess-3"⟩ rfl rfl rfl⟩

/-- Replace the status of a workflow record, leaving every other field as it
was. -/
def setStatus (st : RunStatus) (w : Workflow) : Workflow := { w with status := st }

/-- C10: close never inspects the workflow status.  First conjunct: a deleted
workflow that resolves and has a session still gets its teardown invoked, and
a succeeding teardown yields the 200 confirmation.  Second conjunct: the
whole close computation is unchanged when the resolver reports every workflow
with its status replaced by an arbitrary one. -/
theorem c10_close_ignores_status :
    (∀ (env : Env) (ref user : String) (w : Workflow) (s : Session),
      env.resolve ref user = Except.ok w →
      w.session = some s →
      w.status = RunStatus.deleted →
      (close_interactive_session env ref user).teardownCalled = true ∧
      (env.teardown s.id_ = Except.ok () →
        close_interactive_session env ref user =
          { outcome := Outcome.response ⟨Body.message sessionClosedMsg, 200⟩,
            teardownCalled := true })) ∧
    (∀ (env : Env) (st : RunStatus) (ref user : String),
      close_interactive_session
        { env with resolve := fun r u => (env.resolve r u).map (setStatus st) } ref user =
      close_interactive_session env ref user) := by
  constructor
  · intro env ref user w s hw hs _
    constructor
    · unfold close_interactive_session
      rw [hw]
      simp only [hs]
      cases htd : env.teardown s.id_ with
      | ok a => rfl
      | error e =>
        obtain ⟨k, m⟩ := e
        cases k <;> rfl
    · intro htd
      unfold close_interactive_session
      rw [hw]
      simp [hs, htd]
  · intro env st ref user
    unfold close_interactive_session
    cases hr : env.resolve ref user with
    | error e =>
      simp only [hr, Except.map]
    | ok w =>
      simp only [hr, Except.map, setStatus]

/-- C10 witness: both conjuncts instantiated — close on a concrete deleted
workflow with an open session tears it down and succeeds, and rewriting every
resolved status to `deleted` leaves a concrete close invocation unchanged. -/
theorem c10_close_ignores_status_witness :
    envDeletedWithSession.resolve "wf-4" "user-1" = Except.ok wfDeletedWithSession ∧
    wfDeletedWithSession.session = some ⟨"sess-4"⟩ ∧
    wfDeletedWithSession.status = RunStatus.deleted ∧
    ((close_interactive_session envDeletedWithSession "wf-4" "user-1").teardownCalled = true ∧
      (envDeletedWithSession.teardown "sess-4" = Except.ok () →
        close_interactive_session envDeletedWithSession "wf-4" "user-1" =
          { outcome := Outcome.response ⟨Body.message sessionClosedMsg, 200⟩,
            teardownCalled := true })) ∧
    close_interactive_session
      { envWithSession with
        resolve := fun r u => (envWithSession.resolve r u).map (setStatus RunStatus.deleted) }
      "wf-3" "user-1" =
    close_interactive_session envWithSession "wf-3" "user-1" :=
  ⟨rfl, rfl, rfl,
    c10_close_ignores_status.1 envDeletedWithSession "wf-4" "user-1" wfDeletedWithSession
      ⟨"sess-4"⟩ rfl rfl rfl,
    c10_close_ignores_status.2 envWithSession RunStatus.deleted "wf-3" "user-1"⟩

end ReanaWorkflowController
